import Mathlib

/-!
Verification of the ml-metrics-dashboard data-model and ingestion core
against its specification.  The schemas are embedded from
`src/app/models.py`; components whose implementation lives outside the
schema module (ingestion pipeline, row validator, trend engine, summary
engine, update guards) are modelled from the specification text, as noted
on each definition.
-/

namespace MLMetrics

/-- Timestamps (`datetime`) are modelled as integers: only ordering and
equality of instants matter for the claims considered here. -/
abbrev DateTime := Int

/-- Python `Decimal` values are modelled as rationals. -/
abbrev Decimal := Rat

/-- A decimal literal as parsed from input: a signed coefficient and a
scale, denoting `coeff / 10 ^ scale`.  This mirrors the coefficient/exponent
representation of Python `Decimal`, on which the `decimal_places` /
`max_digits` field constraints of the schemas operate. -/
structure PDec where
  coeff : Int
  scale : Nat
deriving Repr, DecidableEq

/-- Number of base-10 digits of a natural number (1 digit for 0), matching
how Python `Decimal` counts the digits of a coefficient. -/
def digitCount (n : Nat) : Nat := (Nat.toDigits 10 n).length

/-- The `decimal_places=6, max_digits=20` constraint from
`Field(decimal_places=6, max_digits=20)` in `src/app/models.py`: at most 6
fractional digits and at most 20 coefficient digits. -/
def PDec.validDecimal (d : PDec) : Bool :=
  d.scale ≤ 6 && digitCount d.coeff.natAbs ≤ 20

/-- The `Metric` table row (`src/app/models.py`, class `Metric`): value,
timestamp, notes, creation stamp, four required integer foreign keys and
one optional foreign key to `csv_uploads`. -/
structure Metric where
  id : Option Int
  value : Decimal
  timestamp : DateTime
  notes : String
  created_at : DateTime
  project_id : Int
  model_id : Int
  dataset_id : Int
  metric_type_id : Int
  csv_upload_id : Option Int
deriving Repr, DecidableEq

/-- The `MetricCreate` request schema (`src/app/models.py`, class
`MetricCreate`): same required foreign keys, `notes` defaulting to the
empty string and `csv_upload_id` defaulting to `None`. -/
structure MetricCreate where
  value : Decimal
  timestamp : DateTime
  notes : String
  project_id : Int
  model_id : Int
  dataset_id : Int
  metric_type_id : Int
  csv_upload_id : Option Int
deriving Repr, DecidableEq

/-- A raw `MetricCreate` payload before validation: each field either
present (`some`) or absent (`none`), as a deserialized request body looks
before the pydantic required/optional check runs. -/
structure RawMetricCreate where
  value : Option Decimal
  timestamp : Option DateTime
  notes : Option String
  project_id : Option Int
  model_id : Option Int
  dataset_id : Option Int
  metric_type_id : Option Int
  csv_upload_id : Option Int
deriving Repr, DecidableEq

/-- Pydantic validation of a `MetricCreate` payload, as the field
declarations of `src/app/models.py` prescribe: `value`, `timestamp` and
the four foreign keys are required (validation fails when any is absent);
`notes` defaults to `""` and `csv_upload_id` defaults to `None`. -/
def MetricCreate.parse (r : RawMetricCreate) : Option MetricCreate :=
  match r.value, r.timestamp, r.project_id, r.model_id,
      r.dataset_id, r.metric_type_id with
  | some v, some ts, some p, some m, some d, some mt =>
      some { value := v, timestamp := ts, notes := r.notes.getD "",
             project_id := p, model_id := m, dataset_id := d,
             metric_type_id := mt, csv_upload_id := r.csv_upload_id }
  | _, _, _, _, _, _ => none

/-- Building the persistent `Metric` row from a validated `MetricCreate`:
every payload field is copied, `created_at` is stamped, `id` is left for
the database to assign. -/
def Metric.fromCreate (c : MetricCreate) (now : DateTime) : Metric :=
  { id := none, value := c.value, timestamp := c.timestamp,
    notes := c.notes, created_at := now, project_id := c.project_id,
    model_id := c.model_id, dataset_id := c.dataset_id,
    metric_type_id := c.metric_type_id, csv_upload_id := c.csv_upload_id }

/-- Claim C1: a `MetricCreate` payload validates exactly when all four
entity foreign keys (and value and timestamp) are present; the validated
record and the `Metric` row built from it carry exactly the given four
required foreign keys, and the optional `csv_upload_id` link, which is
`none` precisely when no batch id was supplied. -/
theorem metric_requires_four_foreign_keys (r : RawMetricCreate) :
    ((MetricCreate.parse r).isSome ↔
      r.value.isSome ∧ r.timestamp.isSome ∧ r.project_id.isSome ∧
      r.model_id.isSome ∧ r.dataset_id.isSome ∧ r.metric_type_id.isSome) ∧
    (∀ c : MetricCreate, ∀ now : DateTime, MetricCreate.parse r = some c →
      some c.project_id = r.project_id ∧ some c.model_id = r.model_id ∧
      some c.dataset_id = r.dataset_id ∧
      some c.metric_type_id = r.metric_type_id ∧
      c.csv_upload_id = r.csv_upload_id ∧
      (Metric.fromCreate c now).project_id = c.project_id ∧
      (Metric.fromCreate c now).model_id = c.model_id ∧
      (Metric.fromCreate c now).dataset_id = c.dataset_id ∧
      (Metric.fromCreate c now).metric_type_id = c.metric_type_id ∧
      (Metric.fromCreate c now).csv_upload_id = c.csv_upload_id) := by
  constructor
  · constructor
    · intro h
      unfold MetricCreate.parse at h
      rcases hv : r.value with _ | v <;> rcases ht : r.timestamp with _ | ts <;>
        rcases hp : r.project_id with _ | p <;> rcases hm : r.model_id with _ | m <;>
        rcases hd : r.dataset_id with _ | d <;> rcases hmt : r.metric_type_id with _ | mt <;>
        simp_all
    · rintro ⟨hv, ht, hp, hm, hd, hmt⟩
      rcases Option.isSome_iff_exists.mp hv with ⟨v, hv2⟩
      rcases Option.isSome_iff_exists.mp ht with ⟨ts, ht2⟩
      rcases Option.isSome_iff_exists.mp hp with ⟨p, hp2⟩
      rcases Option.isSome_iff_exists.mp hm with ⟨m, hm2⟩
      rcases Option.isSome_iff_exists.mp hd with ⟨d, hd2⟩
      rcases Option.isSome_iff_exists.mp hmt with ⟨mt, hmt2⟩
      unfold MetricCreate.parse
      rw [hv2, ht2, hp2, hm2, hd2, hmt2]
      simp
  · intro c now h
    unfold MetricCreate.parse at h
    rcases hv : r.value with _ | v <;> rcases ht : r.timestamp with _ | ts <;>
      rcases hp : r.project_id with _ | p <;> rcases hm : r.model_id with _ | m <;>
      rcases hd : r.dataset_id with _ | d <;> rcases hmt : r.metric_type_id with _ | mt <;>
      rw [hv, ht, hp, hm, hd, hmt] at h <;>
      first
      | exact Option.noConfusion h
      | (have h2 := Option.some.inj h
         subst h2
         simp [hp, hm, hd, hmt, Metric.fromCreate])

/-- A concrete raw payload with every field present (batch id included). -/
def rawMetricFull : RawMetricCreate :=
  { value := some 1, timestamp := some 5, notes := some "n",
    project_id := some 1, model_id := some 2, dataset_id := some 3,
    metric_type_id := some 4, csv_upload_id := some 9 }

/-- The record `rawMetricFull` validates to. -/
def metricCreateFull : MetricCreate :=
  { value := 1, timestamp := 5, notes := "n", project_id := 1,
    model_id := 2, dataset_id := 3, metric_type_id := 4,
    csv_upload_id := some 9 }

/-- Witness for claim C1 at a concrete payload. -/
theorem metric_requires_four_foreign_keys_witness :
    ((MetricCreate.parse rawMetricFull).isSome ↔
      rawMetricFull.value.isSome ∧ rawMetricFull.timestamp.isSome ∧
      rawMetricFull.project_id.isSome ∧ rawMetricFull.model_id.isSome ∧
      rawMetricFull.dataset_id.isSome ∧ rawMetricFull.metric_type_id.isSome) ∧
    (some metricCreateFull.project_id = rawMetricFull.project_id ∧
      some metricCreateFull.model_id = rawMetricFull.model_id ∧
      some metricCreateFull.dataset_id = rawMetricFull.dataset_id ∧
      some metricCreateFull.metric_type_id = rawMetricFull.metric_type_id ∧
      metricCreateFull.csv_upload_id = rawMetricFull.csv_upload_id ∧
      (Metric.fromCreate metricCreateFull 0).project_id = metricCreateFull.project_id ∧
      (Metric.fromCreate metricCreateFull 0).model_id = metricCreateFull.model_id ∧
      (Metric.fromCreate metricCreateFull 0).dataset_id = metricCreateFull.dataset_id ∧
      (Metric.fromCreate metricCreateFull 0).metric_type_id = metricCreateFull.metric_type_id ∧
      (Metric.fromCreate metricCreateFull 0).csv_upload_id = metricCreateFull.csv_upload_id) :=
  ⟨(metric_requires_four_foreign_keys rawMetricFull).1,
    (metric_requires_four_foreign_keys rawMetricFull).2 metricCreateFull 0 (by decide)⟩

/-- Upload processing status (`src/app/models.py`, class `CsvUpload`,
comment on `status`: pending, processing, completed, failed). -/
inductive UploadStatus
  | pending
  | processing
  | completed
  | failed
deriving Repr, DecidableEq

/-- Position of a status in the forward state machine
pending → processing → \x7bcompleted, failed\x7d. -/
def UploadStatus.rank : UploadStatus → Nat
  | .pending => 0
  | .processing => 1
  | .completed => 2
  | .failed => 2

/-- Whether a status is terminal (completed or failed). -/
def UploadStatus.isTerminal : UploadStatus → Bool
  | .completed => true
  | .failed => true
  | _ => false

/-- The `CsvUpload` table row (`src/app/models.py`, class `CsvUpload`). -/
structure CsvUpload where
  id : Option Int
  filename : String
  file_size : Int
  status : UploadStatus
  error_message : String
  rows_processed : Int
  rows_failed : Int
  processing_started_at : Option DateTime
  processing_completed_at : Option DateTime
  created_at : DateTime
  project_id : Int
deriving Repr, DecidableEq

/-- The `CsvUploadCreate` request schema (`src/app/models.py`). -/
structure CsvUploadCreate where
  filename : String
  file_size : Int
  project_id : Int
deriving Repr, DecidableEq

/-- Creating the upload record at batch start: `status` defaults to
pending, counters to 0, messages empty (the field defaults declared on
`CsvUpload` in `src/app/models.py`). -/
def CsvUpload.fromCreate (c : CsvUploadCreate) (now : DateTime) : CsvUpload :=
  { id := none, filename := c.filename, file_size := c.file_size,
    status := .pending, error_message := "", rows_processed := 0,
    rows_failed := 0, processing_started_at := none,
    processing_completed_at := none, created_at := now,
    project_id := c.project_id }

/-- Events the ingestion pipeline applies to an upload record. -/
inductive UploadEvent
  | start (t : DateTime)
  | rowOk
  | rowFail (msg : String)
  | finishCompleted (t : DateTime)
  | finishFailed (t : DateTime) (msg : String)
deriving Repr, DecidableEq

/-- Rejection reasons for upload-record transitions. -/
inductive UploadError
  | alreadyRunning
  | notRunning
deriving Repr, DecidableEq

/-- Modelled from the spec: the Ingestion Pipeline (spec §4.3) is not part
of `src/app/models.py`; only the `CsvUpload` / `CsvUploadUpdate` schemas
are.  One pipeline mutation of the upload record: `start` moves
pending → processing (stamping `processing_started_at`) and is rejected
with `AlreadyRunning` on re-entry; row outcomes update the counters and
the (≤2000-char) error text only while processing; the finish events move
processing → completed / failed and stamp `processing_completed_at`.  Any
event against a terminal record is rejected. -/
def CsvUpload.step (u : CsvUpload) : UploadEvent → Except UploadError CsvUpload
  | .start t =>
      if u.status = .pending then
        .ok { u with status := .processing, processing_started_at := some t }
      else .error .alreadyRunning
  | .rowOk =>
      if u.status = .processing then
        .ok { u with rows_processed := u.rows_processed + 1 }
      else .error .notRunning
  | .rowFail msg =>
      if u.status = .processing then
        .ok { u with rows_failed := u.rows_failed + 1,
                     error_message := (u.error_message ++ msg).take 2000 }
      else .error .notRunning
  | .finishCompleted t =>
      if u.status = .processing then
        .ok { u with status := .completed,
                     processing_completed_at := some t }
      else .error .notRunning
  | .finishFailed t msg =>
      if u.status = .processing then
        .ok { u with status := .failed,
                     processing_completed_at := some t,
                     error_message := msg.take 2000 }
      else .error .notRunning

/-- Running a sequence of pipeline events against an upload record; a
rejected event leaves the record untouched. -/
def CsvUpload.run (u : CsvUpload) (es : List UploadEvent) : CsvUpload :=
  es.foldl (fun s e => match s.step e with | .ok s2 => s2 | .error _ => s) u

theorem step_ok_cases (u : CsvUpload) (e : UploadEvent) (u2 : CsvUpload)
    (h : u.step e = .ok u2) :
    (u.status = .pending ∧ u2.status = .processing) ∨
    (u.status = .processing ∧
      (u2.status = .processing ∨ u2.status = .completed ∨
        u2.status = .failed)) := by
  cases e <;> simp only [CsvUpload.step] at h <;> split at h <;>
    first
    | exact Except.noConfusion h
    | (have h2 := Except.ok.inj h
       subst h2
       simp_all)

theorem step_terminal_error (u : CsvUpload) (e : UploadEvent)
    (h : u.status.isTerminal = true) :
    ∃ err, u.step e = .error err := by
  rcases hs : u.status with _ | _ | _ | _ <;> rw [hs] at h <;>
    simp [UploadStatus.isTerminal] at h <;>
    cases e <;> simp only [CsvUpload.step] <;> rw [hs] <;> simp

theorem run_terminal_fixed (u : CsvUpload) (es : List UploadEvent)
    (h : u.status.isTerminal = true) : u.run es = u := by
  induction es with
  | nil => rfl
  | cons e es ih =>
      obtain ⟨err, herr⟩ := step_terminal_error u e h
      unfold CsvUpload.run at ih ⊢
      rw [List.foldl_cons]
      simp only [herr]
      exact ih

theorem step_rank_mono (u : CsvUpload) (e : UploadEvent) (u2 : CsvUpload)
    (h : u.step e = .ok u2) : u.status.rank ≤ u2.status.rank := by
  rcases step_ok_cases u e u2 h with ⟨h1, h2⟩ | ⟨h1, h2 | h2 | h2⟩ <;>
    rw [h1, h2] <;> simp [UploadStatus.rank]

theorem run_rank_mono (u : CsvUpload) (es : List UploadEvent) :
    u.status.rank ≤ (u.run es).status.rank := by
  induction es generalizing u with
  | nil => exact le_refl _
  | cons e es ih =>
      unfold CsvUpload.run
      rw [List.foldl_cons]
      rcases hstep : u.step e with err | u2
      · simp only [hstep]
        exact ih u
      · simp only [hstep]
        exact le_trans (step_rank_mono u e u2 hstep) (ih u2)

/-- Claim C2: an upload record starts at status pending; every accepted
single-step transition follows the forward machine
pending → processing → \x7bcompleted, failed\x7d (so the status rank never
decreases); every event against a terminal (completed/failed) record is
rejected, a terminal record is unchanged by any event sequence, and along
any event sequence the status never regresses. -/
theorem csv_upload_status_never_regresses :
    (∀ c now, (CsvUpload.fromCreate c now).status = .pending) ∧
    (∀ u e u2, CsvUpload.step u e = .ok u2 →
      (u.status = .pending ∧ u2.status = .processing) ∨
      (u.status = .processing ∧
        (u2.status = .processing ∨ u2.status = .completed ∨
          u2.status = .failed))) ∧
    (∀ u e u2, CsvUpload.step u e = .ok u2 →
      u.status.rank ≤ u2.status.rank) ∧
    (∀ u e, u.status.isTerminal = true → ∃ err, CsvUpload.step u e = .error err) ∧
    (∀ u es, u.status.isTerminal = true → CsvUpload.run u es = u) ∧
    (∀ u es, u.status.rank ≤ (CsvUpload.run u es).status.rank) :=
  ⟨fun _ _ => rfl, step_ok_cases, step_rank_mono,
    fun u e h => step_terminal_error u e h,
    fun u es h => run_terminal_fixed u es h, run_rank_mono⟩

/-- A concrete fresh upload record. -/
def uploadFresh : CsvUpload :=
  CsvUpload.fromCreate { filename := "m.csv", file_size := 10, project_id := 1 } 0

/-- The record `uploadFresh` after its start transition. -/
def uploadStarted : CsvUpload :=
  { uploadFresh with status := .processing, processing_started_at := some 5 }

/-- A concrete completed upload record. -/
def uploadDone : CsvUpload :=
  { uploadFresh with status := .completed }

/-- Witness for claim C2 at concrete records and events. -/
theorem csv_upload_status_never_regresses_witness :
    ((uploadFresh.status = .pending ∧ uploadStarted.status = .processing) ∨
      (uploadFresh.status = .processing ∧
        (uploadStarted.status = .processing ∨ uploadStarted.status = .completed ∨
          uploadStarted.status = .failed))) ∧
    uploadFresh.status.rank ≤ uploadStarted.status.rank ∧
    (∃ err, CsvUpload.step uploadDone .rowOk = .error err) ∧
    CsvUpload.run uploadDone [.start 1, .rowOk] = uploadDone :=
  ⟨csv_upload_status_never_regresses.2.1 uploadFresh (.start 5) uploadStarted rfl,
    csv_upload_status_never_regresses.2.2.1 uploadFresh (.start 5) uploadStarted rfl,
    csv_upload_status_never_regresses.2.2.2.1 uploadDone .rowOk (by decide),
    csv_upload_status_never_regresses.2.2.2.2.1 uploadDone [.start 1, .rowOk] (by decide)⟩

/-- Per-row validation errors (spec error taxonomy): a missing required
column names the column; a malformed or out-of-bounds decimal is
`invalidValue`; an unparseable date-time is `invalidTimestamp`; an empty
or oversized string field is reported as `invalidString` naming the
column. -/
inductive RowError
  | missingField (col : String)
  | invalidString (col : String)
  | invalidValue
  | invalidTimestamp
deriving Repr, DecidableEq

/-- The `CsvRowData` row schema (`src/app/models.py`, class
`CsvRowData`). -/
structure CsvRowData where
  project : String
  model : String
  dataset : String
  metric_name : String
  metric_value : PDec
  timestamp : DateTime
deriving Repr, DecidableEq

/-- Modelled from the spec: the Row Validator (spec §4.2) is not part of
`src/app/models.py`; only its row schema `CsvRowData` is.  A raw CSV row
after header matching: each column is either absent (`none`) or holds the
cell.  For `metric_value` and `timestamp` the cell is recorded together
with the result of lexing it (`some none` = present but not a decimal
literal / date-time). -/
structure RawRow where
  project : Option String
  model : Option String
  dataset : Option String
  metric_name : Option String
  metric_value : Option (Option PDec)
  timestamp : Option (Option DateTime)
deriving Repr, DecidableEq

/-- Modelled from the spec: the string-field check of the Row Validator —
required column present, non-empty, at most 100 characters (the
`max_length=100` bound declared on `CsvRowData`). -/
def checkStr (col : String) (cell : Option String) : Except RowError String :=
  match cell with
  | none => .error (.missingField col)
  | some s =>
      if s.length = 0 ∨ 100 < s.length then .error (.invalidString col)
      else .ok s

/-- Modelled from the spec: the `metric_value` check of the Row Validator — the
column must be present, lex as a decimal, and satisfy the
`decimal_places=6, max_digits=20` bounds of `CsvRowData`. -/
def checkVal (cell : Option (Option PDec)) : Except RowError PDec :=
  match cell with
  | none => .error (.missingField "metric_value")
  | some none => .error .invalidValue
  | some (some d) => if d.validDecimal then .ok d else .error .invalidValue

/-- Modelled from the spec: the `timestamp` check of the Row Validator — the
column must be present and lex as an absolute date-time. -/
def checkTs (cell : Option (Option DateTime)) : Except RowError DateTime :=
  match cell with
  | none => .error (.missingField "timestamp")
  | some none => .error .invalidTimestamp
  | some (some t) => .ok t

/-- Modelled from the spec: `validate(rawRow)` of the Row Validator (spec
§4.2), checking the columns in header order and returning the error of
the first violated check, or the typed `CsvRowData` record. -/
def validateRow (r : RawRow) : Except RowError CsvRowData :=
  match checkStr "project" r.project with
  | .error e => .error e
  | .ok p =>
    match checkStr "model" r.model with
    | .error e => .error e
    | .ok m =>
      match checkStr "dataset" r.dataset with
      | .error e => .error e
      | .ok d =>
        match checkStr "metric_name" r.metric_name with
        | .error e => .error e
        | .ok mn =>
          match checkVal r.metric_value with
          | .error e => .error e
          | .ok v =>
            match checkTs r.timestamp with
            | .error e => .error e
            | .ok ts =>
              .ok { project := p, model := m, dataset := d,
                    metric_name := mn, metric_value := v, timestamp := ts }

/-- Whether a validation outcome is a success. -/
def okb {α : Type} : Except RowError α → Bool
  | .ok _ => true
  | .error _ => false

/-- A cell holds an acceptable string field: present, non-empty, at most
100 characters. -/
def goodStr (cell : Option String) : Prop :=
  ∃ s, cell = some s ∧ 0 < s.length ∧ s.length ≤ 100

theorem checkStr_ok_iff (col : String) (cell : Option String) :
    (∃ s, checkStr col cell = .ok s) ↔ goodStr cell := by
  rcases cell with _ | s
  · simp [checkStr, goodStr]
  · simp only [checkStr, goodStr]
    by_cases h : s.length = 0 ∨ 100 < s.length
    · rw [if_pos h]
      simp only [reduceCtorEq, exists_false, false_iff]
      rintro ⟨s2, hs2, h1, h2⟩
      cases Option.some.inj hs2
      omega
    · rw [if_neg h]
      push_neg at h
      constructor
      · rintro ⟨s2, hs2⟩
        exact ⟨s, rfl, by omega, by omega⟩
      · rintro ⟨s2, hs2, h1, h2⟩
        exact ⟨s, rfl⟩

theorem checkVal_ok_iff (cell : Option (Option PDec)) :
    (∃ d, checkVal cell = .ok d) ↔
      (∃ d, cell = some (some d) ∧ d.scale ≤ 6 ∧
        digitCount d.coeff.natAbs ≤ 20) := by
  rcases cell with _ | (_ | d)
  · simp [checkVal]
  · simp [checkVal]
  · simp only [checkVal]
    by_cases h : d.validDecimal = true
    · rw [if_pos h]
      unfold PDec.validDecimal at h
      rw [Bool.and_eq_true, decide_eq_true_eq, decide_eq_true_eq] at h
      simp only [Except.ok.injEq, exists_eq', true_iff]
      exact ⟨d, rfl, h.1, h.2⟩
    · rw [if_neg h]
      unfold PDec.validDecimal at h
      rw [Bool.and_eq_true, decide_eq_true_eq, decide_eq_true_eq] at h
      simp only [reduceCtorEq, exists_false, false_iff]
      rintro ⟨d2, hd2, h1, h2⟩
      rw [Option.some.inj (Option.some.inj hd2)] at h
      exact h ⟨h1, h2⟩

theorem checkTs_ok_iff (cell : Option (Option DateTime)) :
    (∃ t, checkTs cell = .ok t) ↔ (∃ t, cell = some (some t)) := by
  rcases cell with _ | (_ | t) <;> simp [checkTs]

theorem validateRow_isOk_iff (r : RawRow) :
    okb (validateRow r) = true ↔
      (∃ s, checkStr "project" r.project = .ok s) ∧
      (∃ s, checkStr "model" r.model = .ok s) ∧
      (∃ s, checkStr "dataset" r.dataset = .ok s) ∧
      (∃ s, checkStr "metric_name" r.metric_name = .ok s) ∧
      (∃ d, checkVal r.metric_value = .ok d) ∧
      (∃ t, checkTs r.timestamp = .ok t) := by
  unfold validateRow
  rcases h1 : checkStr "project" r.project with e1 | p <;>
    rcases h2 : checkStr "model" r.model with e2 | m <;>
    rcases h3 : checkStr "dataset" r.dataset with e3 | d <;>
    rcases h4 : checkStr "metric_name" r.metric_name with e4 | mn <;>
    rcases h5 : checkVal r.metric_value with e5 | v <;>
    rcases h6 : checkTs r.timestamp with e6 | ts <;>
    simp [okb]

/-- Claim C3: row validation accepts a raw CSV row exactly when the four
string fields are present, non-empty and at most 100 characters, the
`metric_value` cell lexes as a decimal with at most 6 fractional digits
and at most 20 coefficient digits, and the `timestamp` cell lexes as a
date-time; a missing `project` column is rejected as `missingField
"project"`, a present-but-non-decimal `metric_value` as `invalidValue`,
and a present-but-unparseable `timestamp` as `invalidTimestamp`. -/
theorem row_validation_accepts_iff (r : RawRow) :
    (okb (validateRow r) = true ↔
      goodStr r.project ∧ goodStr r.model ∧ goodStr r.dataset ∧
      goodStr r.metric_name ∧
      (∃ d, r.metric_value = some (some d) ∧ d.scale ≤ 6 ∧
        digitCount d.coeff.natAbs ≤ 20) ∧
      (∃ t, r.timestamp = some (some t))) ∧
    (r.project = none → validateRow r = .error (.missingField "project")) ∧
    (goodStr r.project → goodStr r.model → goodStr r.dataset →
      goodStr r.metric_name → r.metric_value = some none →
      validateRow r = .error .invalidValue) ∧
    (goodStr r.project → goodStr r.model → goodStr r.dataset →
      goodStr r.metric_name →
      (∃ d, r.metric_value = some (some d) ∧ d.scale ≤ 6 ∧
        digitCount d.coeff.natAbs ≤ 20) →
      r.timestamp = some none →
      validateRow r = .error .invalidTimestamp) := by
  refine ⟨?_, ?_, ?_, ?_⟩
  · rw [validateRow_isOk_iff, checkStr_ok_iff, checkStr_ok_iff,
      checkStr_ok_iff, checkStr_ok_iff, checkVal_ok_iff, checkTs_ok_iff]
  · intro h
    unfold validateRow
    rw [h]
    rfl
  · intro hp hm hd hmn hv
    obtain ⟨p, hp2⟩ := (checkStr_ok_iff "project" r.project).mpr hp
    obtain ⟨m, hm2⟩ := (checkStr_ok_iff "model" r.model).mpr hm
    obtain ⟨d, hd2⟩ := (checkStr_ok_iff "dataset" r.dataset).mpr hd
    obtain ⟨mn, hmn2⟩ := (checkStr_ok_iff "metric_name" r.metric_name).mpr hmn
    unfold validateRow
    rw [hp2, hm2, hd2, hmn2, hv]
    rfl
  · intro hp hm hd hmn hv hts
    obtain ⟨p, hp2⟩ := (checkStr_ok_iff "project" r.project).mpr hp
    obtain ⟨m, hm2⟩ := (checkStr_ok_iff "model" r.model).mpr hm
    obtain ⟨d, hd2⟩ := (checkStr_ok_iff "dataset" r.dataset).mpr hd
    obtain ⟨mn, hmn2⟩ := (checkStr_ok_iff "metric_name" r.metric_name).mpr hmn
    obtain ⟨v, hv2⟩ := (checkVal_ok_iff r.metric_value).mpr hv
    unfold validateRow
    rw [hp2, hm2, hd2, hmn2, hv2, hts]
    rfl

/-- A raw row missing the project column. -/
def rawRowNoProject : RawRow :=
  { project := none, model := some "m", dataset := some "d",
    metric_name := some "acc", metric_value := some (some ⟨915, 3⟩),
    timestamp := some (some 7) }

/-- A raw row whose metric_value cell does not lex as a decimal. -/
def rawRowBadValue : RawRow :=
  { rawRowNoProject with project := some "p", metric_value := some none }

/-- A raw row whose timestamp cell does not lex as a date-time. -/
def rawRowBadTs : RawRow :=
  { rawRowBadValue with metric_value := some (some ⟨915, 3⟩), timestamp := some none }

/-- Witness for claim C3 at concrete rejected rows. -/
theorem row_validation_accepts_iff_witness :
    validateRow rawRowNoProject = .error (.missingField "project") ∧
    validateRow rawRowBadValue = .error .invalidValue ∧
    validateRow rawRowBadTs = .error .invalidTimestamp :=
  ⟨(row_validation_accepts_iff rawRowNoProject).2.1 rfl,
    (row_validation_accepts_iff rawRowBadValue).2.2.1
      ⟨"p", rfl, by decide, by decide⟩ ⟨"m", rfl, by decide, by decide⟩
      ⟨"d", rfl, by decide, by decide⟩ ⟨"acc", rfl, by decide, by decide⟩ rfl,
    (row_validation_accepts_iff rawRowBadTs).2.2.2
      ⟨"p", rfl, by decide, by decide⟩ ⟨"m", rfl, by decide, by decide⟩
      ⟨"d", rfl, by decide, by decide⟩ ⟨"acc", rfl, by decide, by decide⟩
      ⟨⟨915, 3⟩, rfl, by decide, by decide⟩ rfl⟩

/-- The `MetricSummary` response schema (`src/app/models.py`, class
`MetricSummary`): `trend_direction` is one of "up", "down", "stable";
`change_percentage` defaults to `None`. -/
structure MetricSummary where
  metric_type_name : String
  metric_type_unit : String
  latest_value : Decimal
  latest_timestamp : DateTime
  model_name : String
  dataset_name : String
  trend_direction : String
  change_percentage : Option Decimal
deriving Repr, DecidableEq

/-- Modelled from the spec: the latest observation of a metric history
ordered by timestamp ascending — its last element. -/
def latestValue (vs : List Decimal) : Option Decimal := vs.getLast?

/-- Modelled from the spec: the immediately preceding observation — the
second-to-last element of the ascending history. -/
def previousValue (vs : List Decimal) : Option Decimal := vs.dropLast.getLast?

/-- Modelled from the spec: rounding to 6 decimal places, the precision of
stored metric values. -/
def roundDec6 (q : Decimal) : Decimal :=
  ((round (q * 10 ^ 6) : Int) : Rat) / 10 ^ 6

theorem roundDec6_intCast (n : Int) : roundDec6 ((n : Int) : Rat) = (n : Rat) := by
  unfold roundDec6
  rw [show ((n : Rat) * 10 ^ 6) = ((n * 10 ^ 6 : Int) : Rat) by push_cast; ring,
    round_intCast]
  push_cast
  rw [mul_div_assoc]
  norm_num

/-- Modelled from the spec: the Summary/Trend Engine (spec §4.6) is not
part of `src/app/models.py`; only its response schema `MetricSummary` is.
Trend direction: compare the latest value to the immediately preceding
one — "up" if strictly greater, "down" if strictly less, "stable" if equal
or if fewer than two observations exist. -/
def trendDirection (vs : List Decimal) : String :=
  match latestValue vs, previousValue vs with
  | some l, some p =>
      if p < l then "up" else if l < p then "down" else "stable"
  | _, _ => "stable"

/-- Modelled from the spec: percentage change
`(latest − previous) / |previous| × 100`, rounded to the stored precision;
`none` when the previous value is zero or absent. -/
def changePercentage (vs : List Decimal) : Option Decimal :=
  match latestValue vs, previousValue vs with
  | some l, some p =>
      if p = 0 then none else some (roundDec6 ((l - p) / |p| * 100))
  | _, _ => none

/-- Modelled from the spec: `summarize` (spec §4.6) over the metric
history matching the four-way key, ordered by timestamp ascending; `none`
when the history is empty (no latest observation exists). -/
def summarize (tname tunit mname dname : String)
    (history : List (Decimal × DateTime)) : Option MetricSummary :=
  match history.getLast? with
  | some last =>
      some { metric_type_name := tname, metric_type_unit := tunit,
             latest_value := last.1, latest_timestamp := last.2,
             model_name := mname, dataset_name := dname,
             trend_direction := trendDirection (history.map Prod.fst),
             change_percentage := changePercentage (history.map Prod.fst) }
  | none => none

theorem previousValue_eq_none_iff (vs : List Decimal) :
    previousValue vs = none ↔ vs.length < 2 := by
  unfold previousValue
  rw [List.getLast?_eq_none_iff]
  constructor
  · intro h
    have h2 := congrArg List.length h
    rw [List.length_dropLast] at h2
    simp only [List.length_nil] at h2
    omega
  · intro h
    have h2 : vs.dropLast.length = 0 := by rw [List.length_dropLast]; omega
    exact List.length_eq_zero.mp h2

theorem trend_up_iff (vs : List Decimal) :
    trendDirection vs = "up" ↔
      ∃ l p, latestValue vs = some l ∧ previousValue vs = some p ∧ p < l := by
  rcases hl : latestValue vs with _ | l <;>
      rcases hp : previousValue vs with _ | p <;>
      simp only [trendDirection, hl, hp]
  · simp
  · simp
  · simp
  · split_ifs with h1 h2
    · exact iff_of_true rfl ⟨l, p, rfl, rfl, h1⟩
    · refine iff_of_false (by decide) ?_
      rintro ⟨l2, p2, hl2, hp2, hlt⟩
      cases Option.some.inj hl2
      cases Option.some.inj hp2
      exact h1 hlt
    · refine iff_of_false (by decide) ?_
      rintro ⟨l2, p2, hl2, hp2, hlt⟩
      cases Option.some.inj hl2
      cases Option.some.inj hp2
      exact h1 hlt

theorem trend_down_iff (vs : List Decimal) :
    trendDirection vs = "down" ↔
      ∃ l p, latestValue vs = some l ∧ previousValue vs = some p ∧ l < p := by
  rcases hl : latestValue vs with _ | l <;>
      rcases hp : previousValue vs with _ | p <;>
      simp only [trendDirection, hl, hp]
  · simp
  · simp
  · simp
  · split_ifs with h1 h2
    · refine iff_of_false (by decide) ?_
      rintro ⟨l2, p2, hl2, hp2, hlt⟩
      cases Option.some.inj hl2
      cases Option.some.inj hp2
      exact absurd h1 (not_lt.mpr (le_of_lt hlt))
    · exact iff_of_true rfl ⟨l, p, rfl, rfl, h2⟩
    · refine iff_of_false (by decide) ?_
      rintro ⟨l2, p2, hl2, hp2, hlt⟩
      cases Option.some.inj hl2
      cases Option.some.inj hp2
      exact h2 hlt

theorem trend_stable_iff (vs : List Decimal) :
    trendDirection vs = "stable" ↔
      vs.length < 2 ∨
        ∃ l p, latestValue vs = some l ∧ previousValue vs = some p ∧ l = p := by
  rcases hl : latestValue vs with _ | l <;>
      rcases hp : previousValue vs with _ | p <;>
      simp only [trendDirection, hl, hp]
  · have h0 : vs = [] := List.getLast?_eq_none_iff.mp hl
    subst h0
    simp
  · have h0 : vs = [] := List.getLast?_eq_none_iff.mp hl
    subst h0
    simp [previousValue] at hp
  · have h2 : vs.length < 2 := (previousValue_eq_none_iff vs).mp hp
    simp [h2]
  · have h2 : ¬ vs.length < 2 := by
      intro hlen
      rw [← previousValue_eq_none_iff vs] at hlen
      rw [hp] at hlen
      exact Option.noConfusion hlen
    split_ifs with h1 h3
    · refine iff_of_false (by decide) ?_
      rintro (hlen | ⟨l2, p2, hl2, hp2, heq⟩)
      · exact h2 hlen
      · cases Option.some.inj hl2
        cases Option.some.inj hp2
        rw [heq] at h1
        exact lt_irrefl _ h1
    · refine iff_of_false (by decide) ?_
      rintro (hlen | ⟨l2, p2, hl2, hp2, heq⟩)
      · exact h2 hlen
      · cases Option.some.inj hl2
        cases Option.some.inj hp2
        rw [heq] at h3
        exact lt_irrefl _ h3
    · exact iff_of_true rfl
        (Or.inr ⟨l, p, rfl, rfl, le_antisymm (not_lt.mp h1) (not_lt.mp h3)⟩)

theorem changePercentage_some_iff (vs : List Decimal) :
    (∃ c, changePercentage vs = some c) ↔
      ∃ l p, latestValue vs = some l ∧ previousValue vs = some p ∧ p ≠ 0 := by
  rcases hl : latestValue vs with _ | l <;>
      rcases hp : previousValue vs with _ | p <;>
      simp only [changePercentage, hl, hp]
  · simp
  · simp
  · simp
  · by_cases h0 : p = 0
    · rw [if_pos h0]
      refine iff_of_false (by simp) ?_
      rintro ⟨l2, p2, hl2, hp2, hne⟩
      cases Option.some.inj hl2
      cases Option.some.inj hp2
      exact hne h0
    · rw [if_neg h0]
      exact iff_of_true ⟨_, rfl⟩ ⟨l, p, rfl, rfl, h0⟩

theorem changePercentage_formula (vs : List Decimal) (l p : Decimal)
    (hl : latestValue vs = some l) (hp : previousValue vs = some p)
    (h0 : p ≠ 0) :
    changePercentage vs = some (roundDec6 ((l - p) / |p| * 100)) := by
  simp only [changePercentage, hl, hp]
  rw [if_neg h0]

theorem summarize_fields (tname tunit mname dname : String)
    (history : List (Decimal × DateTime)) (s : MetricSummary)
    (h : summarize tname tunit mname dname history = some s) :
    s.trend_direction = trendDirection (history.map Prod.fst) ∧
    s.change_percentage = changePercentage (history.map Prod.fst) := by
  unfold summarize at h
  rcases hlast : history.getLast? with _ | last <;> rw [hlast] at h
  · exact Option.noConfusion h
  · cases Option.some.inj h
    exact ⟨rfl, rfl⟩

/-- Claim C4: for a metric history ordered by timestamp ascending, the
trend direction of the summary is "up" exactly when the last value strictly
exceeds the second-to-last, "down" exactly when strictly below, "stable"
exactly when they are equal or fewer than two observations exist; the
change percentage is `(latest − previous) / |previous| × 100` rounded to
the stored precision, present exactly when a nonzero previous value
exists; in particular [10, 10] gives "stable" and 0, [10, 12] gives "up"
and 20, and a single observation gives "stable" and null. -/
theorem trend_engine_correct :
    (∀ vs, trendDirection vs = "up" ↔
      ∃ l p, latestValue vs = some l ∧ previousValue vs = some p ∧ p < l) ∧
    (∀ vs, trendDirection vs = "down" ↔
      ∃ l p, latestValue vs = some l ∧ previousValue vs = some p ∧ l < p) ∧
    (∀ vs, trendDirection vs = "stable" ↔
      vs.length < 2 ∨
        ∃ l p, latestValue vs = some l ∧ previousValue vs = some p ∧ l = p) ∧
    (∀ vs, (∃ c, changePercentage vs = some c) ↔
      ∃ l p, latestValue vs = some l ∧ previousValue vs = some p ∧ p ≠ 0) ∧
    (∀ vs l p, latestValue vs = some l → previousValue vs = some p →
      p ≠ 0 → changePercentage vs = some (roundDec6 ((l - p) / |p| * 100))) ∧
    (∀ tname tunit mname dname history s,
      summarize tname tunit mname dname history = some s →
      s.trend_direction = trendDirection (history.map Prod.fst) ∧
      s.change_percentage = changePercentage (history.map Prod.fst)) ∧
    trendDirection [10, 10] = "stable" ∧ changePercentage [10, 10] = some 0 ∧
    trendDirection [10, 12] = "up" ∧ changePercentage [10, 12] = some 20 ∧
    trendDirection [10] = "stable" ∧ changePercentage [10] = none :=
  ⟨trend_up_iff, trend_down_iff, trend_stable_iff, changePercentage_some_iff,
    changePercentage_formula, summarize_fields,
    by decide,
    by
      rw [changePercentage_formula [10, 10] 10 10 rfl rfl (by norm_num),
        show ((10 : Rat) - 10) / |(10 : Rat)| * 100 = 0 by norm_num,
        show (0 : Rat) = ((0 : Int) : Rat) by norm_num, roundDec6_intCast],
    by decide,
    by
      rw [changePercentage_formula [10, 12] 12 10 rfl rfl (by norm_num),
        show ((12 : Rat) - 10) / |(10 : Rat)| * 100 = 20 by norm_num,
        show (20 : Rat) = ((20 : Int) : Rat) by norm_num, roundDec6_intCast],
    rfl, rfl⟩

/-- The summary produced for the two-point history [(10, 1), (12, 2)]. -/
def summaryExample : MetricSummary :=
  { metric_type_name := "acc", metric_type_unit := "%", latest_value := 12,
    latest_timestamp := 2, model_name := "m", dataset_name := "d",
    trend_direction := trendDirection [10, 12],
    change_percentage := changePercentage [10, 12] }

/-- Witness for claim C4: the conditional conjuncts applied at the history
[10, 12]. -/
theorem trend_engine_correct_witness :
    changePercentage [10, 12] =
      some (roundDec6 (((12 : Decimal) - 10) / |(10 : Decimal)| * 100)) ∧
    (summaryExample.trend_direction =
        trendDirection ([(10, 1), (12, 2)].map Prod.fst) ∧
      summaryExample.change_percentage =
        changePercentage ([(10, 1), (12, 2)].map Prod.fst)) :=
  ⟨trend_engine_correct.2.2.2.2.1 [10, 12] 12 10 rfl rfl (by decide),
    trend_engine_correct.2.2.2.2.2.1 "acc" "%" "m" "d" [(10, 1), (12, 2)]
      summaryExample rfl⟩

/-- The `MetricFilter` query schema (`src/app/models.py`, class
`MetricFilter`): every field optional; `limit` is declared
`Field(default=1000, le=10000)`. -/
structure MetricFilter where
  project_ids : Option (List Int)
  model_ids : Option (List Int)
  dataset_ids : Option (List Int)
  metric_type_ids : Option (List Int)
  start_timestamp : Option DateTime
  end_timestamp : Option DateTime
  limit : Option Int
deriving Repr, DecidableEq

/-- A raw `MetricFilter` payload: for `limit` an absent field (`none`,
which takes the declared default) is distinguished from an explicit null
(`some none`, allowed by the `Optional[int]` annotation). -/
structure RawMetricFilter where
  project_ids : Option (List Int)
  model_ids : Option (List Int)
  dataset_ids : Option (List Int)
  metric_type_ids : Option (List Int)
  start_timestamp : Option DateTime
  end_timestamp : Option DateTime
  limit : Option (Option Int)
deriving Repr, DecidableEq

/-- Pydantic validation of `MetricFilter` per the field declarations in
`src/app/models.py`: an absent `limit` takes the default 1000; a supplied
integer `limit` must satisfy the `le=10000` bound, otherwise validation
fails; no other constraint is declared on `limit`. -/
def MetricFilter.validate (r : RawMetricFilter) : Option MetricFilter :=
  match r.limit with
  | none =>
      some { project_ids := r.project_ids, model_ids := r.model_ids,
             dataset_ids := r.dataset_ids,
             metric_type_ids := r.metric_type_ids,
             start_timestamp := r.start_timestamp,
             end_timestamp := r.end_timestamp, limit := some 1000 }
  | some none =>
      some { project_ids := r.project_ids, model_ids := r.model_ids,
             dataset_ids := r.dataset_ids,
             metric_type_ids := r.metric_type_ids,
             start_timestamp := r.start_timestamp,
             end_timestamp := r.end_timestamp, limit := none }
  | some (some n) =>
      if n ≤ 10000 then
        some { project_ids := r.project_ids, model_ids := r.model_ids,
               dataset_ids := r.dataset_ids,
               metric_type_ids := r.metric_type_ids,
               start_timestamp := r.start_timestamp,
               end_timestamp := r.end_timestamp, limit := some n }
      else none

/-- Claim C5: an unspecified `limit` defaults to 1000, and a specified
limit strictly greater than 10000 is rejected by validation. -/
theorem metric_filter_limit_default_and_cap (r : RawMetricFilter) :
    (r.limit = none →
      (MetricFilter.validate r).map MetricFilter.limit = some (some 1000)) ∧
    (∀ n : Int, 10000 < n → r.limit = some (some n) →
      MetricFilter.validate r = none) := by
  constructor
  · intro h
    simp only [MetricFilter.validate, h]
    rfl
  · intro n h1 h2
    simp only [MetricFilter.validate, h2]
    rw [if_neg (not_le.mpr h1)]

/-- A raw filter payload with every field absent. -/
def rawFilterDefault : RawMetricFilter :=
  { project_ids := none, model_ids := none, dataset_ids := none,
    metric_type_ids := none, start_timestamp := none,
    end_timestamp := none, limit := none }

/-- A raw filter payload with limit 10001. -/
def rawFilterBig : RawMetricFilter :=
  { rawFilterDefault with limit := some (some 10001) }

/-- Witness for claim C5 at concrete payloads. -/
theorem metric_filter_limit_default_and_cap_witness :
    (MetricFilter.validate rawFilterDefault).map MetricFilter.limit =
      some (some 1000) ∧
    MetricFilter.validate rawFilterBig = none :=
  ⟨(metric_filter_limit_default_and_cap rawFilterDefault).1 rfl,
    (metric_filter_limit_default_and_cap rawFilterBig).2 10001 (by decide) rfl⟩

/-- Claim C9: a specified integer limit passes validation exactly when it
is at most 10000 — there is no lower bound, so 0 and negative limits are
accepted. -/
theorem metric_filter_no_lower_bound (r : RawMetricFilter) (n : Int)
    (h : r.limit = some (some n)) :
    (MetricFilter.validate r).isSome = true ↔ n ≤ 10000 := by
  simp only [MetricFilter.validate, h]
  by_cases h2 : n ≤ 10000
  · rw [if_pos h2]
    simpa using h2
  · rw [if_neg h2]
    simpa using h2

/-- A raw filter payload with limit 0. -/
def rawFilterZero : RawMetricFilter :=
  { rawFilterDefault with limit := some (some 0) }

/-- A raw filter payload with limit -5. -/
def rawFilterNeg : RawMetricFilter :=
  { rawFilterDefault with limit := some (some (-5)) }

/-- Witness for claim C9: limits 0 and -5 pass validation. -/
theorem metric_filter_no_lower_bound_witness :
    ((MetricFilter.validate rawFilterZero).isSome = true ↔
      (0 : Int) ≤ 10000) ∧
    ((MetricFilter.validate rawFilterNeg).isSome = true ↔
      (-5 : Int) ≤ 10000) :=
  ⟨metric_filter_no_lower_bound rawFilterZero 0 rfl,
    metric_filter_no_lower_bound rawFilterNeg (-5) rfl⟩

/-- The `MetricUpdate` schema (`src/app/models.py`, class `MetricUpdate`):
only `value`, `timestamp` and `notes`, each optional. -/
structure MetricUpdate where
  value : Option Decimal
  timestamp : Option DateTime
  notes : Option String
deriving Repr, DecidableEq

/-- Modelled from the spec: applying a partial metric update — each field
set in the `MetricUpdate` schema overwrites the stored column; the schema
declares no other field, so every other column is untouched. -/
def Metric.applyUpdate (m : Metric) (u : MetricUpdate) : Metric :=
  { m with value := u.value.getD m.value,
           timestamp := u.timestamp.getD m.timestamp,
           notes := u.notes.getD m.notes }

/-- Claim C6: a metric update can change only value, timestamp and notes;
the four entity foreign keys, the csv_upload link, the id and created_at
are unchanged by every update. -/
theorem metric_update_frame (m : Metric) (u : MetricUpdate) :
    (m.applyUpdate u).project_id = m.project_id ∧
    (m.applyUpdate u).model_id = m.model_id ∧
    (m.applyUpdate u).dataset_id = m.dataset_id ∧
    (m.applyUpdate u).metric_type_id = m.metric_type_id ∧
    (m.applyUpdate u).csv_upload_id = m.csv_upload_id ∧
    (m.applyUpdate u).created_at = m.created_at ∧
    (m.applyUpdate u).id = m.id ∧
    (m.applyUpdate u).value = u.value.getD m.value ∧
    (m.applyUpdate u).timestamp = u.timestamp.getD m.timestamp ∧
    (m.applyUpdate u).notes = u.notes.getD m.notes :=
  ⟨rfl, rfl, rfl, rfl, rfl, rfl, rfl, rfl, rfl, rfl⟩

/-- JSON object values (for `dataset_metadata`), modelled as key/value
pairs. -/
abbrev JsonObj := List (String × String)

/-- The `Project` table row (`src/app/models.py`). -/
structure Project where
  id : Option Int
  name : String
  description : String
  created_at : DateTime
  updated_at : DateTime
deriving Repr, DecidableEq

/-- The `Model` table row (`src/app/models.py`). -/
structure Model where
  id : Option Int
  name : String
  version : String
  description : String
  created_at : DateTime
deriving Repr, DecidableEq

/-- The `Dataset` table row (`src/app/models.py`). -/
structure Dataset where
  id : Option Int
  name : String
  version : String
  description : String
  dataset_metadata : JsonObj
  created_at : DateTime
deriving Repr, DecidableEq

/-- The `MetricType` table row (`src/app/models.py`). -/
structure MetricType where
  id : Option Int
  name : String
  description : String
  unit : String
  higher_is_better : Bool
  created_at : DateTime
deriving Repr, DecidableEq

/-- The `ProjectUpdate` schema (`src/app/models.py`). -/
structure ProjectUpdate where
  name : Option String
  description : Option String
deriving Repr, DecidableEq

/-- The `ModelUpdate` schema (`src/app/models.py`). -/
structure ModelUpdate where
  name : Option String
  version : Option String
  description : Option String
deriving Repr, DecidableEq

/-- The `DatasetUpdate` schema (`src/app/models.py`). -/
structure DatasetUpdate where
  name : Option String
  version : Option String
  description : Option String
  dataset_metadata : Option JsonObj
deriving Repr, DecidableEq

/-- The `MetricTypeUpdate` schema (`src/app/models.py`). -/
structure MetricTypeUpdate where
  name : Option String
  description : Option String
  unit : Option String
  higher_is_better : Option Bool
deriving Repr, DecidableEq

/-- Rejection raised when modifying an entity still referenced by a
Metric in a way the spec forbids. -/
inductive RefError
  | referentialViolation
deriving Repr, DecidableEq

/-- Modelled from the spec: guarded project update — the update-guard
logic is not under `src/app/models.py`; per the spec an entity referenced
by a Metric is immutable except for its description/metadata fields, so a
referenced project rejects an update that sets `name`. -/
def Project.guardedUpdate (referenced : Bool) (p : Project)
    (u : ProjectUpdate) : Except RefError Project :=
  if referenced && u.name.isSome then .error .referentialViolation
  else
    .ok { p with name := u.name.getD p.name,
                 description := u.description.getD p.description }

/-- Modelled from the spec: guarded model update — a referenced model
rejects an update that sets `name` or `version`. -/
def Model.guardedUpdate (referenced : Bool) (m : Model)
    (u : ModelUpdate) : Except RefError Model :=
  if referenced && (u.name.isSome || u.version.isSome) then
    .error .referentialViolation
  else
    .ok { m with name := u.name.getD m.name,
                 version := u.version.getD m.version,
                 description := u.description.getD m.description }

/-- Modelled from the spec: guarded dataset update — a referenced dataset
rejects an update that sets `name` or `version`; description and
`dataset_metadata` remain editable. -/
def Dataset.guardedUpdate (referenced : Bool) (d : Dataset)
    (u : DatasetUpdate) : Except RefError Dataset :=
  if referenced && (u.name.isSome || u.version.isSome) then
    .error .referentialViolation
  else
    .ok { d with name := u.name.getD d.name,
                 version := u.version.getD d.version,
                 description := u.description.getD d.description,
                 dataset_metadata := u.dataset_metadata.getD d.dataset_metadata }

/-- Modelled from the spec: guarded metric-type update — a referenced
metric type rejects an update that sets `name`; description, unit and
higher_is_better are descriptive metadata and remain editable. -/
def MetricType.guardedUpdate (referenced : Bool) (t : MetricType)
    (u : MetricTypeUpdate) : Except RefError MetricType :=
  if referenced && u.name.isSome then .error .referentialViolation
  else
    .ok { t with name := u.name.getD t.name,
                 description := u.description.getD t.description,
                 unit := u.unit.getD t.unit,
                 higher_is_better := u.higher_is_better.getD t.higher_is_better }

/-- Claim C7: once an entity is referenced by a Metric, every accepted
update leaves its identity fields unchanged — the name for all four
entity kinds, the version for Model and Dataset, and the id and creation
stamp — so only description/metadata fields can change. -/
theorem referenced_entity_immutable :
    (∀ p u p2, Project.guardedUpdate true p u = .ok p2 →
      p2.name = p.name ∧ p2.id = p.id ∧ p2.created_at = p.created_at ∧
        p2.updated_at = p.updated_at) ∧
    (∀ m u m2, Model.guardedUpdate true m u = .ok m2 →
      m2.name = m.name ∧ m2.version = m.version ∧ m2.id = m.id ∧
        m2.created_at = m.created_at) ∧
    (∀ d u d2, Dataset.guardedUpdate true d u = .ok d2 →
      d2.name = d.name ∧ d2.version = d.version ∧ d2.id = d.id ∧
        d2.created_at = d.created_at) ∧
    (∀ t u t2, MetricType.guardedUpdate true t u = .ok t2 →
      t2.name = t.name ∧ t2.id = t.id ∧ t2.created_at = t.created_at) := by
  refine ⟨?_, ?_, ?_, ?_⟩
  · intro p u p2 h
    unfold Project.guardedUpdate at h
    by_cases hc : (true && u.name.isSome) = true
    · rw [if_pos hc] at h
      exact Except.noConfusion h
    · rw [if_neg hc] at h
      cases Except.ok.inj h
      simp only [Bool.true_and] at hc
      have hn : u.name = none :=
        Option.not_isSome_iff_eq_none.mp (by simpa using hc)
      rw [hn]
      exact ⟨rfl, rfl, rfl, rfl⟩
  · intro m u m2 h
    unfold Model.guardedUpdate at h
    by_cases hc : (true && (u.name.isSome || u.version.isSome)) = true
    · rw [if_pos hc] at h
      exact Except.noConfusion h
    · rw [if_neg hc] at h
      cases Except.ok.inj h
      simp only [Bool.true_and, Bool.or_eq_true, not_or] at hc
      have hn : u.name = none :=
        Option.not_isSome_iff_eq_none.mp (by simpa using hc.1)
      have hv : u.version = none :=
        Option.not_isSome_iff_eq_none.mp (by simpa using hc.2)
      rw [hn, hv]
      exact ⟨rfl, rfl, rfl, rfl⟩
  · intro d u d2 h
    unfold Dataset.guardedUpdate at h
    by_cases hc : (true && (u.name.isSome || u.version.isSome)) = true
    · rw [if_pos hc] at h
      exact Except.noConfusion h
    · rw [if_neg hc] at h
      cases Except.ok.inj h
      simp only [Bool.true_and, Bool.or_eq_true, not_or] at hc
      have hn : u.name = none :=
        Option.not_isSome_iff_eq_none.mp (by simpa using hc.1)
      have hv : u.version = none :=
        Option.not_isSome_iff_eq_none.mp (by simpa using hc.2)
      rw [hn, hv]
      exact ⟨rfl, rfl, rfl, rfl⟩
  · intro t u t2 h
    unfold MetricType.guardedUpdate at h
    by_cases hc : (true && u.name.isSome) = true
    · rw [if_pos hc] at h
      exact Except.noConfusion h
    · rw [if_neg hc] at h
      cases Except.ok.inj h
      simp only [Bool.true_and] at hc
      have hn : u.name = none :=
        Option.not_isSome_iff_eq_none.mp (by simpa using hc)
      rw [hn]
      exact ⟨rfl, rfl, rfl⟩

/-- A concrete project row. -/
def projectA : Project :=
  { id := some 1, name := "alpha", description := "", created_at := 0,
    updated_at := 0 }

/-- A concrete model row. -/
def modelA : Model :=
  { id := some 1, name := "resnet", version := "1.0", description := "",
    created_at := 0 }

/-- A concrete dataset row. -/
def datasetA : Dataset :=
  { id := some 1, name := "imagenet", version := "1.0", description := "",
    dataset_metadata := [], created_at := 0 }

/-- A concrete metric-type row. -/
def metricTypeA : MetricType :=
  { id := some 1, name := "accuracy", description := "", unit := "%",
    higher_is_better := true, created_at := 0 }

/-- Witness for claim C7: description-only updates of referenced entities
succeed and preserve the identity fields. -/
theorem referenced_entity_immutable_witness :
    ((projectA.guardedUpdate true { name := none, description := some "x" }
        |>.map Project.name) = .ok projectA.name) ∧
    ((modelA.guardedUpdate true
        { name := none, version := none, description := some "x" }
        |>.map Model.name) = .ok modelA.name) ∧
    ((datasetA.guardedUpdate true
        { name := none, version := none, description := some "x",
          dataset_metadata := none }
        |>.map Dataset.name) = .ok datasetA.name) ∧
    ((metricTypeA.guardedUpdate true
        { name := none, description := some "x", unit := none,
          higher_is_better := none }
        |>.map MetricType.name) = .ok metricTypeA.name) := by
  refine ⟨?_, ?_, ?_, ?_⟩
  · have h := referenced_entity_immutable.1 projectA
      { name := none, description := some "x" }
      { projectA with description := "x" } rfl
    rw [show Project.guardedUpdate true projectA
        { name := none, description := some "x" } =
        .ok { projectA with description := "x" } from rfl]
    rw [Except.map, h.1]
  · have h := referenced_entity_immutable.2.1 modelA
      { name := none, version := none, description := some "x" }
      { modelA with description := "x" } rfl
    rw [show Model.guardedUpdate true modelA
        { name := none, version := none, description := some "x" } =
        .ok { modelA with description := "x" } from rfl]
    rw [Except.map, h.1]
  · have h := referenced_entity_immutable.2.2.1 datasetA
      { name := none, version := none, description := some "x",
        dataset_metadata := none }
      { datasetA with description := "x" } rfl
    rw [show Dataset.guardedUpdate true datasetA
        { name := none, version := none, description := some "x",
          dataset_metadata := none } =
        .ok { datasetA with description := "x" } from rfl]
    rw [Except.map, h.1]
  · have h := referenced_entity_immutable.2.2.2 metricTypeA
      { name := none, description := some "x", unit := none,
        higher_is_better := none }
      { metricTypeA with description := "x" } rfl
    rw [show MetricType.guardedUpdate true metricTypeA
        { name := none, description := some "x", unit := none,
          higher_is_better := none } =
        .ok { metricTypeA with description := "x" } from rfl]
    rw [Except.map, h.1]

/-- Inserting into the projects table: `Project.name` is declared
`Field(unique=True)` in `src/app/models.py`, so the storage layer rejects
a row whose name is already present. -/
def insertProject (tbl : List Project) (p : Project) : Option (List Project) :=
  if tbl.any (fun q => q.name == p.name) then none else some (tbl ++ [p])

/-- Inserting into the metric_types table: `MetricType.name` is declared
`Field(unique=True)` in `src/app/models.py`. -/
def insertMetricType (tbl : List MetricType) (t : MetricType) :
    Option (List MetricType) :=
  if tbl.any (fun q => q.name == t.name) then none else some (tbl ++ [t])

/-- Inserting into the models table: `Model.name` carries no uniqueness
constraint in `src/app/models.py`, so every insert succeeds. -/
def insertModel (tbl : List Model) (m : Model) : List Model := tbl ++ [m]

/-- Inserting into the datasets table: `Dataset.name` carries no
uniqueness constraint in `src/app/models.py`. -/
def insertDataset (tbl : List Dataset) (d : Dataset) : List Dataset :=
  tbl ++ [d]

/-- A second model sharing the name of `modelA` with another version. -/
def modelB : Model :=
  { id := some 2, name := "resnet", version := "2.0", description := "",
    created_at := 0 }

/-- A second dataset sharing the name of `datasetA` with another version. -/
def datasetB : Dataset :=
  { id := some 2, name := "imagenet", version := "2.0", description := "",
    dataset_metadata := [], created_at := 0 }

/-- Claim C8: successful project and metric-type inserts preserve global
name uniqueness (the unique=True constraint), while model and dataset
inserts never check names — two models, and two datasets, sharing a name
across versions coexist. -/
theorem name_uniqueness :
    (∀ tbl p tbl2, insertProject tbl p = some tbl2 →
      (tbl.map Project.name).Nodup → (tbl2.map Project.name).Nodup) ∧
    (∀ tbl t tbl2, insertMetricType tbl t = some tbl2 →
      (tbl.map MetricType.name).Nodup → (tbl2.map MetricType.name).Nodup) ∧
    (∀ tbl m, insertModel tbl m = tbl ++ [m]) ∧
    (∀ tbl d, insertDataset tbl d = tbl ++ [d]) ∧
    (insertModel (insertModel [] modelA) modelB).map Model.name =
      ["resnet", "resnet"] ∧
    (insertDataset (insertDataset [] datasetA) datasetB).map Dataset.name =
      ["imagenet", "imagenet"] := by
  refine ⟨?_, ?_, fun _ _ => rfl, fun _ _ => rfl, rfl, rfl⟩
  · intro tbl p tbl2 h hnd
    unfold insertProject at h
    by_cases hc : tbl.any (fun q => q.name == p.name)
    · rw [if_pos hc] at h
      exact Option.noConfusion h
    · rw [if_neg hc] at h
      cases Option.some.inj h
      have hmem : p.name ∉ tbl.map Project.name := by
        intro hmem
        obtain ⟨q, hq, hq2⟩ := List.mem_map.mp hmem
        apply hc
        rw [List.any_eq_true]
        refine ⟨q, hq, ?_⟩
        rw [hq2]
        exact beq_self_eq_true _
      rw [List.map_append]
      exact hnd.append (List.nodup_singleton _)
        (List.disjoint_singleton.mpr hmem)
  · intro tbl t tbl2 h hnd
    unfold insertMetricType at h
    by_cases hc : tbl.any (fun q => q.name == t.name)
    · rw [if_pos hc] at h
      exact Option.noConfusion h
    · rw [if_neg hc] at h
      cases Option.some.inj h
      have hmem : t.name ∉ tbl.map MetricType.name := by
        intro hmem
        obtain ⟨q, hq, hq2⟩ := List.mem_map.mp hmem
        apply hc
        rw [List.any_eq_true]
        refine ⟨q, hq, ?_⟩
        rw [hq2]
        exact beq_self_eq_true _
      rw [List.map_append]
      exact hnd.append (List.nodup_singleton _)
        (List.disjoint_singleton.mpr hmem)

/-- A second project with a distinct name. -/
def projectB : Project :=
  { id := some 2, name := "beta", description := "", created_at := 0,
    updated_at := 0 }

/-- Witness for claim C8: inserting a second, differently named project
into a singleton table keeps the names unique. -/
theorem name_uniqueness_witness :
    (([projectA] ++ [projectB]).map Project.name).Nodup :=
  name_uniqueness.1 [projectA] projectB ([projectA] ++ [projectB]) rfl
    (by simp)

/-- The `ProjectSummary` response schema (`src/app/models.py`, class
`ProjectSummary`): aggregate counts plus `latest_metric_timestamp`, an
optional field defaulting to `None`. -/
structure ProjectSummary where
  id : Int
  name : String
  description : String
  created_at : DateTime
  updated_at : DateTime
  total_metrics : Int
  total_models : Int
  total_datasets : Int
  latest_metric_timestamp : Option DateTime
deriving Repr, DecidableEq

/-- Modelled from the spec: the project-level summary computation (spec
§4.6) is not under `src/app/models.py`; only the `ProjectSummary` schema
is.  It aggregates the metrics of the project by grouping: row count, distinct
model and dataset counts, and the maximum metric timestamp, which is
`none` when the project has no metrics. -/
def computeProjectSummary (pid : Int) (p : Project) (ms : List Metric) :
    ProjectSummary :=
  let mine := ms.filter (fun m => m.project_id == pid)
  { id := pid, name := p.name, description := p.description,
    created_at := p.created_at, updated_at := p.updated_at,
    total_metrics := (mine.length : Int),
    total_models := ((mine.map Metric.model_id).dedup.length : Int),
    total_datasets := ((mine.map Metric.dataset_id).dedup.length : Int),
    latest_metric_timestamp := (mine.map Metric.timestamp).max? }

/-- Claim C10: for a project with zero metrics the summary is still
produced, with latest_metric_timestamp null and the aggregate counts all
zero. -/
theorem project_summary_empty (pid : Int) (p : Project) (ms : List Metric)
    (h : ∀ m ∈ ms, m.project_id ≠ pid) :
    (computeProjectSummary pid p ms).latest_metric_timestamp = none ∧
    (computeProjectSummary pid p ms).total_metrics = 0 ∧
    (computeProjectSummary pid p ms).total_models = 0 ∧
    (computeProjectSummary pid p ms).total_datasets = 0 ∧
    (computeProjectSummary pid p ms).id = pid ∧
    (computeProjectSummary pid p ms).name = p.name ∧
    (computeProjectSummary pid p ms).created_at = p.created_at := by
  have hf : ms.filter (fun m => m.project_id == pid) = [] := by
    rw [List.filter_eq_nil_iff]
    intro m hm
    simpa using h m hm
  simp [computeProjectSummary, hf]

/-- A metric row belonging to project 2. -/
def metricOther : Metric :=
  { id := some 7, value := 1, timestamp := 3, notes := "",
    created_at := 0, project_id := 2, model_id := 1, dataset_id := 1,
    metric_type_id := 1, csv_upload_id := none }

/-- Witness for claim C10: project 1 with only a foreign metric present
gets a null latest timestamp and zero counts. -/
theorem project_summary_empty_witness :
    (computeProjectSummary 1 projectA [metricOther]).latest_metric_timestamp
        = none ∧
    (computeProjectSummary 1 projectA [metricOther]).total_metrics = 0 ∧
    (computeProjectSummary 1 projectA [metricOther]).total_models = 0 ∧
    (computeProjectSummary 1 projectA [metricOther]).total_datasets = 0 ∧
    (computeProjectSummary 1 projectA [metricOther]).id = 1 ∧
    (computeProjectSummary 1 projectA [metricOther]).name = projectA.name ∧
    (computeProjectSummary 1 projectA [metricOther]).created_at =
      projectA.created_at :=
  project_summary_empty 1 projectA [metricOther] (by decide)

end MLMetrics
